import Mathlib

/-!
Shallow embedding of the status-aggregation and job-dispatch layer of
`src/dashboard/app.py`.  Python strings are modelled as `List Char`,
Python `dict`s parsed from JSON/YAML as an inductive `JVal` whose `obj`
constructor is an association list with the keys produced by `json.load`
(distinct, insertion ordered).  External commands and file reads are
supplied as `Except`/`Option` parameters: `Except.error` models the
exception the corresponding Python call would raise, `Option.none` a
file that is missing or fails to parse.  Python float arithmetic is
modelled as IEEE-754 binary64: doubles are mantissa-exponent pairs and
each operation rounds its exact result half to even to a 53-bit
mantissa, exactly as CPython evaluates it, with `OverflowError` on
results beyond the double range.
-/

/-- Characters Python's `str.strip` / `str.split()` treat as whitespace. -/
def pyIsSpace (c : Char) : Bool :=
  c = ' ' || c = '\t' || c = '\n' || c = '\r' || c = '\x0b' || c = '\x0c'

/-- Python `s.split('\n')`: split on every newline, keeping empty fragments
(so a trailing newline yields a trailing empty string). -/
def pySplitNl : List Char → List (List Char)
  | [] => [[]]
  | c :: rest =>
    if c = '\n' then [] :: pySplitNl rest
    else
      match pySplitNl rest with
      | [] => [[c]]
      | g :: gs => (c :: g) :: gs

/-- Accumulator worker for `pySplitWs`. -/
def splitWsAux : List Char → List Char → List (List Char)
  | [], acc => if acc = [] then [] else [acc.reverse]
  | c :: rest, acc =>
    if pyIsSpace c then
      if acc = [] then splitWsAux rest [] else acc.reverse :: splitWsAux rest []
    else splitWsAux rest (c :: acc)

/-- Python `s.split()` with no argument: split on runs of whitespace,
discarding empty fragments. -/
def pySplitWs (l : List Char) : List (List Char) :=
  splitWsAux l []

/-- Python `s.strip()`: drop leading and trailing whitespace. -/
def pyStrip (l : List Char) : List Char :=
  ((l.dropWhile pyIsSpace).reverse.dropWhile pyIsSpace).reverse

/-- Python `s.rstrip(cs)`: drop trailing characters belonging to `cs`. -/
def pyRstrip (l : List Char) (cs : List Char) : List Char :=
  (l.reverse.dropWhile (fun c => cs.contains c)).reverse

/-- Python `s.replace(pat, rep)` for a non-empty `pat`: replace
non-overlapping occurrences left to right. -/
def pyReplace (pat rep : List Char) : List Char → List Char
  | [] => []
  | c :: rest =>
    if h : pat ≠ [] ∧ pat.isPrefixOf (c :: rest) then
      rep ++ pyReplace pat rep ((c :: rest).drop pat.length)
    else c :: pyReplace pat rep rest
termination_by l => l.length
decreasing_by
  · simp only [List.length_drop]
    have hp : 0 < pat.length := List.length_pos.mpr h.1
    simp only [List.length_cons]
    omega
  · simp only [List.length_cons]
    omega

/-- Python `needle in hay` on strings: substring containment. -/
def listContainsSub (needle hay : List Char) : Bool :=
  hay.tails.any (fun t => needle.isPrefixOf t)

/-- Value of a non-empty decimal digit string. -/
def digitsToNat (l : List Char) : Nat :=
  l.foldl (fun a c => a * 10 + (c.toNat - 48)) 0

/-- Python `int(s)` on decimal literals: surrounding whitespace stripped,
optional sign, then a non-empty run of digits; anything else raises
`ValueError`, modelled as `Except.error`. -/
def pyInt (l : List Char) : Except Unit Int :=
  let t := pyStrip l
  let signAndDigits : Bool × List Char :=
    match t with
    | '-' :: rest => (true, rest)
    | '+' :: rest => (false, rest)
    | _ => (false, t)
  let ds := signAndDigits.2
  if ds ≠ [] ∧ ds.all (fun c => c.isDigit) then
    .ok (if signAndDigits.1 then -(digitsToNat ds : Int) else (digitsToNat ds : Int))
  else .error ()

/-- Number of binary digits of `n` (0 for 0); the first argument is
structural fuel, always called with `fuel = n ≥` the bit count. -/
def natBitsAux : Nat → Nat → Nat
  | 0, _ => 0
  | fuel + 1, n => if n = 0 then 0 else natBitsAux fuel (n / 2) + 1

/-- Number of binary digits of `n`. -/
def natBits (n : Nat) : Nat := natBitsAux n n

/-- Round `q + r/den` (with `0 ≤ 2·r = twice_r`, `r < den`) to the
nearest integer, ties to even: the IEEE-754 default rounding. -/
def rne (q twice_r den : Nat) : Nat :=
  if twice_r < den then q
  else if den < twice_r then q + 1
  else if q % 2 = 0 then q else q + 1

/-- The binary64 (IEEE-754 double) nearest `a / b` for `a ≥ 0, b > 0`,
as an unbounded-exponent pair `(m, e)` of value `m·2^e` with
`2^52 ≤ m < 2^53` (or `(0, 0)` for zero): the scaled quotient is
computed exactly and rounded half to even.  Exponent saturation
(overflow to infinity, gradual underflow) is left to the caller's
range checks. -/
def fpDivPos (a b : Nat) : Nat × Int :=
  if a = 0 then (0, 0) else
  let p : Int := (natBits a : Int) - (natBits b : Int) - 53
  let N : Nat := if 0 ≤ p then a else a * 2 ^ (-p).toNat
  let D : Nat := if 0 ≤ p then b * 2 ^ p.toNat else b
  let q := N / D
  let me : Nat × Int :=
    if q < 2 ^ 53 then (rne q (2 * (N % D)) D, p)
    else (rne (N / (2 * D)) (2 * (N % (2 * D))) (2 * D), p + 1)
  if me.1 = 2 ^ 53 then (2 ^ 52, me.2 + 1) else me

/-- Binary64 product of the double `m·2^e` with the small integer `c`
(exactly representable, e.g. 100), rounded half to even back to a
53-bit mantissa. -/
def fpMulPos (m : Nat) (e : Int) (c : Nat) : Nat × Int :=
  if m = 0 ∨ c = 0 then (0, 0) else
  let N := m * c
  let nb := natBits N
  if nb ≤ 53 then (N, e)
  else
    let s := nb - 53
    let q := N / 2 ^ s
    let m1 := rne q (2 * (N % 2 ^ s)) (2 ^ s)
    if m1 = 2 ^ 53 then (2 ^ 52, e + (s : Int) + 1) else (m1, e + (s : Int))

/-- Python `int(x)` on the double `±m·2^e`: truncation toward zero. -/
def fpTrunc (neg : Bool) (m : Nat) (e : Int) : Int :=
  let mag : Nat := if 0 ≤ e then m * 2 ^ e.toNat else m / 2 ^ (-e).toNat
  if neg then -(mag : Int) else (mag : Int)

/-- Exact rational value of the double `m·2^e`. -/
def fpToRat (me : Nat × Int) : ℚ :=
  if 0 ≤ me.2 then ((me.1 * 2 ^ me.2.toNat : Nat) : ℚ)
  else (me.1 : ℚ) / ((2 ^ (-me.2).toNat : Nat) : ℚ)

/-- Python `float(s)` on plain decimal forms `ddd`, `ddd.`, `.ddd`,
`ddd.ddd` with optional sign: the decimal value, rounded half to even
to the nearest binary64 double (values beyond the double range, which
C `strtod` saturates to infinity, are outside the modelled range; no
theorem observes this reader's value arithmetically). -/
def pyFloat (l : List Char) : Except Unit ℚ :=
  let t := pyStrip l
  let signAndBody : Bool × List Char :=
    match t with
    | '-' :: rest => (true, rest)
    | '+' :: rest => (false, rest)
    | _ => (false, t)
  let body := signAndBody.2
  let ip := body.takeWhile (fun c => c.isDigit)
  let rest := body.drop ip.length
  let parsed : Except Unit (Nat × Nat) :=
    match rest with
    | [] => if ip = [] then .error () else .ok (digitsToNat ip, 1)
    | '.' :: fp =>
      if fp.all (fun c => c.isDigit) ∧ (ip ≠ [] ∨ fp ≠ []) then
        .ok (digitsToNat ip * 10 ^ fp.length + digitsToNat fp, 10 ^ fp.length)
      else .error ()
    | _ => .error ()
  match parsed with
  | .error _ => .error ()
  | .ok nd =>
    let q := fpToRat (fpDivPos nd.1 nd.2)
    .ok (if signAndBody.1 then -q else q)

/-- Python `int((used / total) * 100)` on int columns, in IEEE binary64
arithmetic as CPython evaluates it: the correctly rounded double
quotient `used / total`, multiplied by `100` with a second rounding,
then truncated toward zero.  `Except.error` is the `OverflowError`
CPython raises when the quotient exceeds the double range, or when the
product is infinite and `int()` rejects it; gradual underflow is not
modelled, but every underflowing input truncates to 0 in both
semantics, so the observable value agrees on all of the double's
non-overflowing range. -/
def pyFloatPct (used total : Int) : Except Unit Int :=
  let d := fpDivPos used.natAbs total.natAbs
  if 972 ≤ d.2 then .error ()
  else
    let p := fpMulPos d.1 d.2 100
    if 972 ≤ p.2 then .error ()
    else .ok (fpTrunc ((decide (used < 0)) != (decide (total < 0))) p.1 p.2)

/-- Python `round(num / den)` (no digits) for the exact rational
`num / den` with `den > 0`: round half to even.  This is the
comparator for the spec's `round(used / total * 100)`; at the inputs
where it is used the binary64 value rounds identically. -/
def pyRoundDiv (num den : Int) : Int :=
  let f := Int.fdiv num den
  let r2 := 2 * (num - f * den)
  if r2 < den then f
  else if den < r2 then f + 1
  else if f % 2 = 0 then f else f + 1

/-- Python `s.capitalize()`. -/
def pyCapitalize (s : String) : String :=
  match s.data with
  | [] => ""
  | c :: rest => String.mk (c.toUpper :: rest.map Char.toLower)

/-- Minimal model of `datetime.datetime`; `datetime.now()` is supplied as
a parameter wherever the source calls it. -/
structure PyDateTime where
  year : Nat
  month : Nat
  day : Nat
  hour : Nat
  minute : Nat
  second : Nat
  microsecond : Nat
deriving DecidableEq

/-- Decimal digits of `n` left-padded with zeros to width `w`. -/
def padZeros (w n : Nat) : List Char :=
  let ds := (Nat.repr n).data
  List.replicate (w - ds.length) '0' ++ ds

/-- Python `datetime.isoformat()`: `YYYY-MM-DDTHH:MM:SS` with a
`.ffffff` suffix exactly when the microsecond field is non-zero. -/
def isoformat (d : PyDateTime) : List Char :=
  padZeros 4 d.year ++
    ('-' :: (padZeros 2 d.month ++
      ('-' :: (padZeros 2 d.day ++
        ('T' :: (padZeros 2 d.hour ++
          (':' :: (padZeros 2 d.minute ++
            (':' :: (padZeros 2 d.second ++
              (if d.microsecond = 0 then []
               else '.' :: padZeros 6 d.microsecond)))))))))))

theorem isoformat_ne_nil (d : PyDateTime) : isoformat d ≠ [] := by
  intro h
  rw [isoformat] at h
  have := List.append_eq_nil.mp h
  exact absurd this.2 (by simp)

/-- Values produced by `json.load` / `yaml.safe_load`: an `obj` is a
Python dict given as its (distinct-keyed, insertion-ordered) association
list; numeric literals are modelled as integers, which covers every
input the claims exercise. -/
inductive JVal where
  | null
  | bool (b : Bool)
  | num (n : Int)
  | str (s : String)
  | arr (xs : List JVal)
  | obj (fields : List (String × JVal))

/-- Python truthiness of a `JVal` (used by `default or` in the readers). -/
def pyTruthy : JVal → Bool
  | .null => false
  | .bool b => b
  | .num n => n ≠ 0
  | .str s => s ≠ ""
  | .arr xs => !xs.isEmpty
  | .obj fs => !fs.isEmpty

/-- Python `v.get(k, d)`: succeeds only when `v` is a dict, otherwise the
interpreter raises `AttributeError` (modelled as `Except.error`). -/
def pyGet (v : JVal) (k : String) (d : JVal) : Except Unit JVal :=
  match v with
  | .obj fs => .ok ((List.lookup k fs).getD d)
  | _ => .error ()

/-- Python `len(v)`: defined on lists, strings and dicts; raises
`TypeError` (modelled as `Except.error`) on the other values. -/
def pyLen : JVal → Except Unit Nat
  | .arr xs => .ok xs.length
  | .str s => .ok s.length
  | .obj fs => .ok fs.length
  | _ => .error ()

/-- Total companion of `pyLen`: the length whenever `pyLen` succeeds. -/
def jLen : JVal → Nat
  | .arr xs => xs.length
  | .str s => s.length
  | .obj fs => fs.length
  | _ => 0

/-- Whether a `JVal` is a dict containing the key `k`. -/
def jHasKey (v : JVal) (k : String) : Bool :=
  match v with
  | .obj fs => fs.any (fun p => p.1 == k)
  | _ => false

/-- `read_json` (app.py:38-46).  `content` is `none` when the file is
missing or `json.load` raises, `some v` when parsing yields `v` (note a
file holding `null` yields `some .null`, not the default).  The fallback
line `return default or \x7b\x7d` is the Python `or`. -/
def read_json (content : Option JVal) (default : JVal) : JVal :=
  match content with
  | some v => v
  | none => if pyTruthy default then default else .obj []

/-- `read_yaml` (app.py:49-57): byte-for-byte the same fallback logic as
`read_json`, with `yaml.safe_load` in place of `json.load`. -/
def read_yaml (content : Option JVal) (default : JVal) : JVal :=
  match content with
  | some v => v
  | none => if pyTruthy default then default else .obj []

/-- The default dict passed by `get_alerts` to `read_json` (app.py:111-116). -/
def alertsDefault : JVal :=
  .obj [("critical", .arr []), ("high", .arr []), ("medium", .arr []), ("info", .arr [])]

/-- The dict returned by `get_alerts` (app.py:118-124). -/
structure AlertSummary where
  critical : JVal
  high : JVal
  medium : JVal
  info : JVal
  total : Nat

/-- `get_alerts` (app.py:108-124).  The four `alerts.get` calls and the
three `len(alerts.get(k, []))` calls of the `total` sum are pure and
repeated on identical arguments, so the lengths are taken of the bound
values; an `Except.error` is the `AttributeError`/`TypeError` the
handler would let escape. -/
def get_alerts (content : Option JVal) : Except Unit AlertSummary :=
  let alerts := read_json content alertsDefault
  match pyGet alerts "critical" (.arr []), pyGet alerts "high" (.arr []),
        pyGet alerts "medium" (.arr []), pyGet alerts "info" (.arr []) with
  | .ok c, .ok h, .ok m, .ok i =>
    match pyLen c, pyLen h, pyLen m with
    | .ok n1, .ok n2, .ok n3 => .ok ⟨c, h, m, i, n1 + n2 + n3⟩
    | _, _, _ => .error ()
  | _, _, _, _ => .error ()

/-- The default dict passed by `get_recommendations` (app.py:145-150). -/
def recDefault : JVal :=
  .obj [("critical", .arr []), ("high", .arr []), ("medium", .arr []), ("optimizations", .arr [])]

/-- `get_recommendations` (app.py:142-150): the parsed file is returned
verbatim; the default only substitutes a missing/unparsable file. -/
def get_recommendations (content : Option JVal) : JVal :=
  read_json content recDefault

/-- `get_monitored_apps` (app.py:153-157). -/
def get_monitored_apps (content : Option JVal) : Except Unit JVal :=
  pyGet (read_yaml content (.obj [])) "apps" (.obj [])

/-- A value held in one field of the status dict: `disk_usage` starts as
the int `0` but is overwritten with a string, so the fields are
dynamically typed as in Python. -/
inductive PyScalar where
  | int (n : Int)
  | float (q : ℚ)
  | str (s : List Char)
deriving DecidableEq

/-- The `status` dict of `get_system_status` (app.py:62-70). -/
structure Status where
  hostname : String
  timestamp : List Char
  disk_usage : PyScalar
  memory_usage : PyScalar
  load_avg : PyScalar
  uptime : PyScalar
  firewall : PyScalar
deriving DecidableEq

/-- The initial status dict (app.py:62-70): every field at its default. -/
def initStatus (host : String) (now : PyDateTime) : Status :=
  { hostname := host
    timestamp := isoformat now
    disk_usage := .int 0
    memory_usage := .int 0
    load_avg := .float 0
    uptime := .str "unknown".data
    firewall := .str "unknown".data }

/-- Outcomes of the five external reads of `get_system_status`; an
`Except.error` is the exception (`CalledProcessError`, `OSError`, ...)
the corresponding call would raise, `.ok out` its text output. -/
structure StatusInputs where
  df_result : Except Unit (List Char)
  free_result : Except Unit (List Char)
  loadavg_result : Except Unit (List Char)
  uptime_result : Except Unit (List Char)
  ufw_result : Except Unit (List Char)

/-- Disk section (app.py:73-79): first non-empty line after the header
of the `df` output; `parts[4]` raises `IndexError` when the line has
fewer than five columns. -/
def step_disk (r : Except Unit (List Char)) (s : Status) : Except Unit Status := do
  let out ← r
  match ((pySplitNl out).drop 1).find? (fun l => !l.isEmpty) with
  | none => pure s
  | some line =>
    match (pySplitWs line).get? 4 with
    | none => .error ()
    | some p => pure { s with disk_usage := .str (pyRstrip p ['%']) }

/-- The literal `'Mem:'` tested by `line.startswith` (app.py:84). -/
def memMarker : List Char := "Mem:".data

/-- Memory section (app.py:81-88): first line of the `free` output that
starts with `Mem:`; columns 1 and 2 parsed as ints, the percentage
computed as `int((used / total) * 100)` in binary64 double arithmetic
(`pyFloatPct`), a zero total raising `ZeroDivisionError`. -/
def step_memory (r : Except Unit (List Char)) (s : Status) : Except Unit Status := do
  let out ← r
  match (pySplitNl out).find? (fun l => memMarker.isPrefixOf l) with
  | none => pure s
  | some line =>
    match (pySplitWs line).get? 1, (pySplitWs line).get? 2 with
    | some p1, some p2 => do
      let total ← pyInt p1
      let used ← pyInt p2
      if total = 0 then .error ()
      else do
        let pct ← pyFloatPct used total
        pure { s with memory_usage := .int pct }
    | _, _ => .error ()

/-- Load-average section (app.py:90-92): first whitespace token of
`/proc/loadavg` parsed as a float; an empty file raises `IndexError`. -/
def step_load (r : Except Unit (List Char)) (s : Status) : Except Unit Status := do
  let out ← r
  match (pySplitWs out).get? 0 with
  | none => .error ()
  | some tok => do
    let v ← pyFloat tok
    pure { s with load_avg := .float v }

/-- Uptime section (app.py:94-96): strip the `uptime -p` output and
delete every occurrence of `'up '`. -/
def step_uptime (r : Except Unit (List Char)) (s : Status) : Except Unit Status := do
  let out ← r
  pure { s with uptime := .str (pyReplace "up ".data [] (pyStrip out)) }

/-- Firewall section (app.py:98-100): substring test on the
`sudo ufw status` output. -/
def step_firewall (r : Except Unit (List Char)) (s : Status) : Except Unit Status := do
  let out ← r
  let fw : PyScalar :=
    .str (if listContainsSub "Status: active".data out then "active".data else "inactive".data)
  pure { s with firewall := fw }

/-- The single `try` block of `get_system_status` (app.py:72-103): the
sections run in order; the first exception skips every later section,
is caught, and the status accumulated so far is returned. -/
def runSteps (s : Status) : List (Status → Except Unit Status) → Status
  | [] => s
  | f :: rest =>
    match f s with
    | .ok s2 => runSteps s2 rest
    | .error _ => s

/-- `get_system_status` (app.py:60-105). -/
def get_system_status (host : String) (now : PyDateTime) (inp : StatusInputs) : Status :=
  runSteps (initStatus host now)
    [step_disk inp.df_result, step_memory inp.free_result, step_load inp.loadavg_result,
     step_uptime inp.uptime_result, step_firewall inp.ufw_result]

/-- The JSON body and HTTP status produced by `api_trigger_job`
(app.py:215-243), together with whether `subprocess.Popen` was reached
(`spawn_attempted = false` means no child process creation was even
attempted). -/
structure TriggerResponse where
  status : Nat
  success : Option Bool
  message : Option (List Char)
  error_msg : Option (List Char)
  timestamp : Option (List Char)
  spawn_attempted : Bool
deriving DecidableEq

/-- `api_trigger_job` (app.py:215-243).  `script_exists` is the
filesystem's answer for the script name resolved from the job id;
`spawn_result` the outcome of `subprocess.Popen` (`.error e` models the
exception text when process creation fails); `now` the clock at the
success response. -/
def api_trigger_job (job : String) (script_exists : String → Bool)
    (spawn_result : Except (List Char) Unit) (now : PyDateTime) : TriggerResponse :=
  if job = "hourly" ∨ job = "daily" then
    if script_exists ("run-" ++ job ++ ".sh") then
      match spawn_result with
      | .ok _ =>
        { status := 200
          success := some true
          message := some ((pyCapitalize job).data ++ " maintenance job started".data)
          error_msg := none
          timestamp := some (isoformat now)
          spawn_attempted := true }
      | .error e =>
        { status := 500
          success := some false
          message := none
          error_msg := some e
          timestamp := none
          spawn_attempted := true }
    else
      { status := 404
        success := none
        message := none
        error_msg := some ("Script not found: run-".data ++ job.data ++ ".sh".data)
        timestamp := none
        spawn_attempted := false }
  else
    { status := 400
      success := none
      message := none
      error_msg := some "Invalid job type".data
      timestamp := none
      spawn_attempted := false }

/-- Flask's `request.args.get(name, default, type=int)`: the default is
returned when the parameter is absent (`none`) or when the `int`
conversion raises (`some (.error ())`); a successfully converted value
is returned unchanged, negative or zero included. -/
def flask_args_get_int (v : Option (Except Unit Int)) (d : Int) : Int :=
  match v with
  | none => d
  | some (.error _) => d
  | some (.ok n) => n

/-- The line count `api_activity` (app.py:180-184) passes to
`get_recent_activity`. -/
def api_activity_n (v : Option (Except Unit Int)) : Int :=
  flask_args_get_int v 100

/-- The line count `api_logs` (app.py:246-262) passes to `tail -n`. -/
def api_logs_n (v : Option (Except Unit Int)) : Int :=
  flask_args_get_int v 100

/-- `get_recent_activity` (app.py:127-139): empty list when the log file
is missing or `tail` fails; otherwise the raw output split on newlines
(the trailing empty fragment included). -/
def get_recent_activity (log_exists : Bool) (tail_result : Except Unit (List Char)) :
    List (List Char) :=
  if log_exists then
    match tail_result with
    | .ok out => pySplitNl out
    | .error _ => []
  else []

/-- Responses of `api_logs` (app.py:246-264). -/
inductive LogsResp where
  | lines (ls : List (List Char))
  | err500 (msg : List Char)

/-- `api_logs` (app.py:246-264): the `type` parameter selects the log
path (anything but `activity`, absence included, falls back to the
sysadmin log); a missing file yields empty lines, a `tail` failure a 500
response, otherwise the output split on newlines. -/
def api_logs (log_type : Option String) (activity_log_present sysadmin_log_present : Bool)
    (tail_result : Except (List Char) (List Char)) : LogsResp :=
  let lt := log_type.getD "sysadmin"
  let present := if lt = "activity" then activity_log_present else sysadmin_log_present
  if present then
    match tail_result with
    | .ok out => .lines (pySplitNl out)
    | .error e => .err500 e
  else .lines []

@[simp]
theorem except_bind_ok {α β ε : Type} (a : α) (f : α → Except ε β) :
    (Except.ok a >>= f) = f a := rfl

@[simp]
theorem except_bind_error {α β ε : Type} (e : ε) (f : α → Except ε β) :
    ((Except.error e : Except ε α) >>= f) = Except.error e := rfl

@[simp]
theorem except_pure_eq {α ε : Type} (a : α) : (pure a : Except ε α) = Except.ok a := rfl

theorem pyLen_ok {v : JVal} {n : Nat} (h : pyLen v = Except.ok n) : jLen v = n := by
  cases v <;> simp_all [pyLen, jLen]

/-- C7: when the alerts source file does not exist, `get_alerts` returns
exactly the dict with empty `critical`, `high`, `medium` and `info`
sequences and `total = 0`. -/
theorem alerts_missing_file_default :
    get_alerts none =
      Except.ok (AlertSummary.mk (.arr []) (.arr []) (.arr []) (.arr []) 0) := rfl

/-- C2: whenever `get_alerts` returns a summary, its `total` field is the
sum of the lengths of the returned `critical`, `high` and `medium`
values — recomputed, hence never whatever `total` value the source file
stores. -/
theorem alerts_total_recomputed (content : Option JVal) (r : AlertSummary)
    (h : get_alerts content = Except.ok r) :
    r.total = jLen r.critical + jLen r.high + jLen r.medium := by
  simp only [get_alerts] at h
  split at h
  · split at h
    · rename_i n1 n2 n3 hl1 hl2 hl3
      cases h
      simp [pyLen_ok hl1, pyLen_ok hl2, pyLen_ok hl3]
    · simp at h
  · simp at h

/-- Witness for C2: a file whose stored `total` is 99 but which holds a
single critical alert yields a summary with `total = 1`. -/
theorem alerts_total_recomputed_witness :
    (AlertSummary.mk (.arr [.null]) (.arr []) (.arr []) (.arr []) 1).total =
      jLen (JVal.arr [JVal.null]) + jLen (JVal.arr []) + jLen (JVal.arr []) :=
  alerts_total_recomputed
    (some (.obj [("critical", .arr [.null]), ("total", .num 99)]))
    (AlertSummary.mk (.arr [.null]) (.arr []) (.arr []) (.arr []) 1) rfl

/-- C4 counterexample: an alerts file that parses successfully to a JSON
array makes `get_alerts` raise (`AttributeError` on `alerts.get`), so
the handler does not return a default-filled response. -/
theorem alerts_nonobject_raises :
    get_alerts (some (JVal.arr [])) = Except.error () := rfl

/-- C4 amended: files that are missing or fail to parse never raise and
yield the documented defaults; but values of unexpected shape are not
defaulted — a parsed array raises in `get_alerts` and
`get_monitored_apps`, while `get_recommendations` returns it verbatim. -/
theorem readers_default_on_missing :
    get_alerts none =
        Except.ok (AlertSummary.mk (.arr []) (.arr []) (.arr []) (.arr []) 0) ∧
    get_recommendations none = recDefault ∧
    get_monitored_apps none = Except.ok (JVal.obj []) ∧
    (∀ xs, get_alerts (some (JVal.arr xs)) = Except.error ()) ∧
    (∀ xs, get_monitored_apps (some (JVal.arr xs)) = Except.error ()) ∧
    (∀ xs, get_recommendations (some (JVal.arr xs)) = JVal.arr xs) :=
  ⟨rfl, rfl, rfl, fun _ => rfl, fun _ => rfl, fun _ => rfl⟩

/-- C9 counterexample: a recommendations file parsing to an empty JSON
object is returned as-is, so none of the four documented keys is
present — absent keys are not replaced by defaults. -/
theorem recommendations_missing_keys_not_filled :
    jHasKey (get_recommendations (some (JVal.obj []))) "critical" = false ∧
    jHasKey (get_recommendations (some (JVal.obj []))) "high" = false ∧
    jHasKey (get_recommendations (some (JVal.obj []))) "medium" = false ∧
    jHasKey (get_recommendations (some (JVal.obj []))) "optimizations" = false :=
  ⟨rfl, rfl, rfl, rfl⟩

/-- C9 amended: only a missing/unparsable recommendations file produces
the four-key default; any parsed value is returned verbatim with no
per-key substitution. -/
theorem recommendations_verbatim_or_default :
    jHasKey (get_recommendations none) "critical" = true ∧
    jHasKey (get_recommendations none) "high" = true ∧
    jHasKey (get_recommendations none) "medium" = true ∧
    jHasKey (get_recommendations none) "optimizations" = true ∧
    (∀ v, get_recommendations (some v) = v) :=
  ⟨rfl, rfl, rfl, rfl, fun _ => rfl⟩

/-- C6 counterexample: a `lines` value converting to the integer 0 is
passed through to `tail -n` unchanged, not replaced by the default 100
(and `tail -n 0` is an empty read). -/
theorem lines_nonpositive_passed_through :
    api_activity_n (some (Except.ok 0)) = 0 ∧
    api_activity_n (some (Except.ok 0)) ≠ 100 ∧
    api_logs_n (some (Except.ok 0)) = 0 ∧
    api_logs_n (some (Except.ok 0)) ≠ 100 :=
  ⟨rfl, by decide, rfl, by decide⟩

/-- C6 amended: the fallback to 100 happens exactly when the `lines`
parameter is absent or fails integer conversion; any successfully
converted integer, zero or negative included, is used as-is. -/
theorem lines_default_absent_or_unparsable :
    api_activity_n none = 100 ∧ api_logs_n none = 100 ∧
    api_activity_n (some (Except.error ())) = 100 ∧
    api_logs_n (some (Except.error ())) = 100 ∧
    (∀ n : Int, api_activity_n (some (Except.ok n)) = n) ∧
    (∀ n : Int, api_logs_n (some (Except.ok n)) = n) :=
  ⟨rfl, rfl, rfl, rfl, fun _ => rfl, fun _ => rfl⟩

/-- C5: a job id outside the allow-list is rejected with 400, and an
allow-listed job whose script is absent is rejected with 404; in both
cases `subprocess.Popen` is never reached. -/
theorem trigger_rejects_without_spawn (job : String) (ex : String → Bool)
    (spawn : Except (List Char) Unit) (now : PyDateTime) :
    (¬(job = "hourly" ∨ job = "daily") →
      (api_trigger_job job ex spawn now).status = 400 ∧
      (api_trigger_job job ex spawn now).spawn_attempted = false) ∧
    ((job = "hourly" ∨ job = "daily") → ex ("run-" ++ job ++ ".sh") = false →
      (api_trigger_job job ex spawn now).status = 404 ∧
      (api_trigger_job job ex spawn now).spawn_attempted = false) := by
  constructor
  · intro h
    simp [api_trigger_job, if_neg h]
  · intro h1 h2
    simp [api_trigger_job, if_pos h1, h2]

/-- Witness for C5: the id `weekly` is rejected 400, and `daily` with an
absent script is rejected 404, neither attempting a spawn. -/
theorem trigger_rejects_without_spawn_witness :
    ((api_trigger_job "weekly" (fun _ => true) (Except.ok ())
        (PyDateTime.mk 2026 1 2 3 4 5 0)).status = 400 ∧
     (api_trigger_job "weekly" (fun _ => true) (Except.ok ())
        (PyDateTime.mk 2026 1 2 3 4 5 0)).spawn_attempted = false) ∧
    ((api_trigger_job "daily" (fun _ => false) (Except.ok ())
        (PyDateTime.mk 2026 1 2 3 4 5 0)).status = 404 ∧
     (api_trigger_job "daily" (fun _ => false) (Except.ok ())
        (PyDateTime.mk 2026 1 2 3 4 5 0)).spawn_attempted = false) :=
  ⟨(trigger_rejects_without_spawn "weekly" (fun _ => true) (Except.ok ())
      (PyDateTime.mk 2026 1 2 3 4 5 0)).1 (by decide),
   (trigger_rejects_without_spawn "daily" (fun _ => false) (Except.ok ())
      (PyDateTime.mk 2026 1 2 3 4 5 0)).2 (Or.inr rfl) rfl⟩

/-- C8: triggering `hourly` when its script exists and the spawn
succeeds returns HTTP 200 with `success = true` and a non-empty
ISO-format timestamp. -/
theorem trigger_hourly_success (ex : String → Bool) (now : PyDateTime)
    (h : ex ("run-" ++ "hourly" ++ ".sh") = true) :
    (api_trigger_job "hourly" ex (Except.ok ()) now).status = 200 ∧
    (api_trigger_job "hourly" ex (Except.ok ()) now).success = some true ∧
    (api_trigger_job "hourly" ex (Except.ok ()) now).timestamp = some (isoformat now) ∧
    isoformat now ≠ [] := by
  have h1 : ("hourly" : String) = "hourly" ∨ ("hourly" : String) = "daily" := Or.inl rfl
  simp only [api_trigger_job, if_pos h1, h, if_true]
  exact ⟨rfl, rfl, rfl, isoformat_ne_nil now⟩

/-- Witness for C8: concrete clock and an existing script. -/
theorem trigger_hourly_success_witness :
    (api_trigger_job "hourly" (fun _ => true) (Except.ok ())
        (PyDateTime.mk 2026 1 2 3 4 5 0)).status = 200 ∧
    (api_trigger_job "hourly" (fun _ => true) (Except.ok ())
        (PyDateTime.mk 2026 1 2 3 4 5 0)).success = some true ∧
    (api_trigger_job "hourly" (fun _ => true) (Except.ok ())
        (PyDateTime.mk 2026 1 2 3 4 5 0)).timestamp =
      some (isoformat (PyDateTime.mk 2026 1 2 3 4 5 0)) ∧
    isoformat (PyDateTime.mk 2026 1 2 3 4 5 0) ≠ [] :=
  trigger_hourly_success (fun _ => true) (PyDateTime.mk 2026 1 2 3 4 5 0) rfl

theorem step_load_preserves_memory {r : Except Unit (List Char)} {s s' : Status}
    (h : step_load r s = Except.ok s') : s'.memory_usage = s.memory_usage := by
  cases r with
  | error e => simp [step_load] at h
  | ok out =>
    simp only [step_load, except_bind_ok] at h
    split at h
    · simp at h
    · rename_i tok htok
      cases hpf : pyFloat tok with
      | error e => rw [hpf] at h; simp at h
      | ok v =>
        rw [hpf] at h
        simp only [except_bind_ok, except_pure_eq] at h
        cases h
        rfl

theorem step_uptime_preserves_memory {r : Except Unit (List Char)} {s s' : Status}
    (h : step_uptime r s = Except.ok s') : s'.memory_usage = s.memory_usage := by
  cases r with
  | error e => simp [step_uptime] at h
  | ok out =>
    simp only [step_uptime, except_bind_ok, except_pure_eq] at h
    cases h
    rfl

theorem step_firewall_preserves_memory {r : Except Unit (List Char)} {s s' : Status}
    (h : step_firewall r s = Except.ok s') : s'.memory_usage = s.memory_usage := by
  cases r with
  | error e => simp [step_firewall] at h
  | ok out =>
    simp only [step_firewall, except_bind_ok, except_pure_eq] at h
    cases h
    rfl

theorem runSteps_preserves_memory (s : Status) (fs : List (Status → Except Unit Status))
    (H : ∀ f ∈ fs, ∀ s1 s2, f s1 = Except.ok s2 → s2.memory_usage = s1.memory_usage) :
    (runSteps s fs).memory_usage = s.memory_usage := by
  induction fs generalizing s with
  | nil => rfl
  | cons f rest ih =>
    rw [runSteps]
    split
    · rename_i s2 heq
      rw [ih s2 (fun g hg => H g (List.mem_cons_of_mem f hg))]
      exact H f (List.mem_cons_self f rest) s s2 heq
    · rfl

/-- Inputs in which only the disk reader fails while every other reader
would succeed with parseable output. -/
def dfFailInputs : StatusInputs :=
  { df_result := Except.error ()
    free_result := Except.ok "Mem: 2 1\n".data
    loadavg_result := Except.ok "0.5 0.4 0.3 1/100 42".data
    uptime_result := Except.ok "up 5 minutes".data
    ufw_result := Except.ok "Status: active\n".data }

/-- C1 counterexample: with exactly one failing reader (disk), the
memory field of the snapshot keeps its default 0 even though the memory
reader succeeds and, run on its own, would set the field to 50. -/
theorem status_single_failure_not_isolated :
    (get_system_status "host" (PyDateTime.mk 2026 1 2 3 4 5 0) dfFailInputs).memory_usage =
      PyScalar.int 0 ∧
    step_memory dfFailInputs.free_result
        (initStatus "host" (PyDateTime.mk 2026 1 2 3 4 5 0)) =
      Except.ok { initStatus "host" (PyDateTime.mk 2026 1 2 3 4 5 0) with
                    memory_usage := PyScalar.int 50 } :=
  ⟨rfl, rfl⟩

/-- C1 amended: the five readers share a single try block, so a failure
of the first (disk) reader aborts the whole collection and every field
keeps its default, the well-formed initial status being returned. -/
theorem status_disk_failure_defaults_all (host : String) (now : PyDateTime)
    (inp : StatusInputs) (h : inp.df_result = Except.error ()) :
    get_system_status host now inp = initStatus host now := by
  unfold get_system_status
  rw [h]
  rfl

/-- Witness for C1 amended: the concrete failing-disk inputs. -/
theorem status_disk_failure_defaults_all_witness :
    get_system_status "host" (PyDateTime.mk 2026 1 2 3 4 5 0) dfFailInputs =
      initStatus "host" (PyDateTime.mk 2026 1 2 3 4 5 0) :=
  status_disk_failure_defaults_all "host" (PyDateTime.mk 2026 1 2 3 4 5 0) dfFailInputs rfl

/-- Inputs whose `free` output makes `used / total` equal to 2/3: the
code truncates 66.66… to 66 where rounding would give 67; the readers
after the memory one are irrelevant and fail here. -/
def memTruncInputs : StatusInputs :=
  { df_result := Except.ok []
    free_result := Except.ok "x\nMem: 3 2 1\n".data
    loadavg_result := Except.error ()
    uptime_result := Except.error ()
    ufw_result := Except.error () }

/-- C3 counterexample: with `total = 3, used = 2` the snapshot records
66 (`int` truncation) while `round(used / total * 100)` is 67. -/
theorem memory_int_not_round :
    (get_system_status "host" (PyDateTime.mk 2026 1 2 3 4 5 0) memTruncInputs).memory_usage =
      PyScalar.int 66 ∧
    pyRoundDiv (2 * 100) 3 = 67 ∧
    PyScalar.int 66 ≠ PyScalar.int (pyRoundDiv (2 * 100) 3) :=
  ⟨rfl, by decide, by decide⟩

/-- C3 amended: the memory percentage recorded by the snapshot is
`int((used / total) * 100)` as CPython evaluates it in binary64 double
arithmetic — the correctly rounded double quotient, multiplied by 100
with a second rounding, then truncated toward zero — not
`round(used / total * 100)`; it is taken from the first line of the
`free` output starting with `Mem:`, provided the disk section before
it succeeded, and lines not starting with `Mem:` are ignored by the
scan. -/
theorem runSteps_cons_ok {f : Status → Except Unit Status} {s s2 : Status}
    {rest : List (Status → Except Unit Status)} (h : f s = Except.ok s2) :
    runSteps s (f :: rest) = runSteps s2 rest := by
  have base : runSteps s (f :: rest) =
      match f s with
      | Except.ok s3 => runSteps s3 rest
      | Except.error _ => s := rfl
  rw [base, h]

theorem memory_truncation (host : String) (now : PyDateTime) (inp : StatusInputs)
    (f line p1 p2 : List Char) (rest : List (List Char)) (t u pct : Int)
    (hdf : inp.df_result = Except.ok [])
    (hfree : inp.free_result = Except.ok f)
    (hfind : (pySplitNl f).find? (fun l => memMarker.isPrefixOf l) = some line)
    (hparts : pySplitWs line = memMarker :: p1 :: p2 :: rest)
    (ht : pyInt p1 = Except.ok t) (hu : pyInt p2 = Except.ok u) (ht0 : ¬t = 0)
    (hpct : pyFloatPct u t = Except.ok pct) :
    (get_system_status host now inp).memory_usage = PyScalar.int pct := by
  have hm : step_memory (Except.ok f) (initStatus host now) =
      Except.ok { initStatus host now with memory_usage := PyScalar.int pct } := by
    simp only [step_memory, except_bind_ok, hfind, hparts, List.get?, ht, hu,
      except_pure_eq, if_neg ht0, hpct]
  unfold get_system_status
  rw [hdf, hfree]
  rw [runSteps_cons_ok (show step_disk (Except.ok []) (initStatus host now) =
        Except.ok (initStatus host now) from rfl)]
  rw [runSteps_cons_ok hm]
  rw [runSteps_preserves_memory]
  · intro g hg s1 s2 hgs
    simp only [List.mem_cons] at hg
    rcases hg with rfl | rfl | rfl | hg
    · exact step_load_preserves_memory hgs
    · exact step_uptime_preserves_memory hgs
    · exact step_firewall_preserves_memory hgs
    · simp at hg

/-- Witness for C3 amended: `total = 4, used = 1` records 25 (the
binary64 arithmetic is exact there). -/
theorem memory_truncation_witness :
    (get_system_status "host" (PyDateTime.mk 2026 1 2 3 4 5 0)
        (StatusInputs.mk (Except.ok []) (Except.ok "Mem: 4 1\n".data)
          (Except.error ()) (Except.error ()) (Except.error ()))).memory_usage =
      PyScalar.int 25 :=
  memory_truncation "host" (PyDateTime.mk 2026 1 2 3 4 5 0)
    (StatusInputs.mk (Except.ok []) (Except.ok "Mem: 4 1\n".data)
      (Except.error ()) (Except.error ()) (Except.error ()))
    "Mem: 4 1\n".data "Mem: 4 1".data "4".data "1".data [] 4 1 25
    rfl rfl (by decide) (by decide) rfl rfl (by decide) rfl

theorem pySplitNl_ne_nil (l : List Char) : pySplitNl l ≠ [] := by
  cases l with
  | nil => simp [pySplitNl]
  | cons c rest =>
    simp only [pySplitNl]
    split
    · simp
    · split <;> simp

theorem pySplitNl_concat_newline (l : List Char) :
    pySplitNl (l ++ ['\n']) = pySplitNl l ++ [[]] := by
  induction l with
  | nil => rfl
  | cons c rest ih =>
    simp only [List.cons_append, pySplitNl, List.append_eq]
    split
    · rw [ih]
      simp
    · rw [ih]
      obtain ⟨g, gs, hg⟩ := List.exists_cons_of_ne_nil (pySplitNl_ne_nil rest)
      rw [hg]
      simp [List.cons_append]

/-- C10: when the `tail` output is non-empty and ends in a newline, the
line sequences served by `get_recent_activity` and `api_logs` carry a
trailing empty string, because the raw output is split on newline
without dropping the final empty fragment. -/
theorem tail_trailing_empty_line (out : List Char) (h1 : out ≠ [])
    (h2 : out.getLast? = some '\n') :
    (get_recent_activity true (Except.ok out)).getLast? = some [] ∧
    api_logs (some "activity") true true (Except.ok out) = LogsResp.lines (pySplitNl out) ∧
    (pySplitNl out).getLast? = some [] := by
  have hlast : out.getLast h1 = '\n' := by
    have hq := List.getLast?_eq_getLast out h1
    rw [hq] at h2
    exact Option.some.inj h2
  have hdecomp : out.dropLast ++ ['\n'] = out := by
    conv_rhs => rw [← List.dropLast_append_getLast h1]
    rw [hlast]
  have hsplit : (pySplitNl out).getLast? = some [] := by
    rw [← hdecomp, pySplitNl_concat_newline]
    simp
  exact ⟨hsplit, rfl, hsplit⟩

/-- Witness for C10: the two-line output `a` + newline. -/
theorem tail_trailing_empty_line_witness :
    (get_recent_activity true (Except.ok "a\n".data)).getLast? = some [] ∧
    api_logs (some "activity") true true (Except.ok "a\n".data) =
      LogsResp.lines (pySplitNl "a\n".data) ∧
    (pySplitNl "a\n".data).getLast? = some [] :=
  tail_trailing_empty_line "a\n".data (by decide) (by decide)
